import Mathlib

/-!
Verification of the DicomSorter core pipeline (src/dicomsorter/controls/dicom.py)
against its natural-language specification.

Modelling choices (shallow embedding):
* Python strings are lists of Unicode code points (`List Nat`); `txt` converts a
  Lean string literal to this representation.  Python `str.lower` is modelled on
  the ASCII fragment (code points 65..90 map to 97..122, everything else fixed),
  which covers every concrete value appearing in the claims.
* `clean_text` mirrors the source: build a translation table sending each
  forbidden symbol to an underscore, apply it, then lowercase the result.
* DICOM datasets are modelled by the seven header fields `create_path` reads
  (a partial map from field to value, where a value is a string or Python None)
  together with the file-meta facts `save_dicom_file` consults.
* Filesystem paths follow `pathlib` joining semantics: joining with a string
  that starts with a slash discards the left operand; empty segments vanish.
* Exceptions are explicit: `Except` for fallible functions, and the orchestrator
  returns the list of progress tuples yielded before any escaping exception.
-/

namespace DicomSorter

/-- Python text as a list of Unicode code points. -/
abbrev PyText := List Nat

/-- Convert a Lean string literal to its code-point list. -/
def txt (s : String) : PyText := s.data.map Char.toNat

/-- Code point of the underscore character. -/
def underscoreCp : Nat := 95

/-- Code point of the slash character. -/
def slashCp : Nat := 47

/-- Python `str.lower` on one code point (ASCII fragment). -/
def pyLower1 (c : Nat) : Nat := if 65 ≤ c ∧ c ≤ 90 then c + 32 else c

/-- Python `str.lower` on a string. -/
def pyLowerStr (s : PyText) : PyText := s.map pyLower1

/-- `str.translate` with the table built in `clean_text`: every forbidden
symbol becomes an underscore, all other code points are unchanged. -/
def pyTranslate (forbidden : PyText) (s : PyText) : PyText :=
  s.map (fun c => if c ∈ forbidden then underscoreCp else c)

/-- The default forbidden-symbol set of `clean_text`
(asterisk, period, comma, double quote, backslash, slash, pipe, square
brackets, colon, semicolon, space). -/
def defaultForbidden : PyText := txt "*.,\"\\/|[]:; "

/-- `clean_text(text, forbidden_symbols)` from the source: replace each
forbidden symbol with an underscore, then lowercase. -/
def clean_text (text : PyText) (forbidden : PyText) : PyText :=
  pyLowerStr (pyTranslate forbidden text)

/-- `clean_text` with its default forbidden set (`forbidden_symbols=None`). -/
def clean_textD (text : PyText) : PyText := clean_text text defaultForbidden

/-! ## Datasets and metadata values -/

/-- A raw metadata value as stored in a dataset element: a string, or Python
None (pydicom uses None for empty elements). -/
inductive PyValue where
  | str : PyText → PyValue
  | pyNone : PyValue

deriving DecidableEq

/-- Python `str(value)`: a string is itself; `str(None)` is the text "None". -/
def pyStr : PyValue → PyText
  | .str s => s
  | .pyNone => txt "None"

/-- The seven DICOM header fields read by `create_path`. -/
inductive Field where
  | Modality | InstanceNumber | KVP | SliceThickness | ConvolutionKernel
  | PatientID | StudyDate

deriving DecidableEq

/-- A dataset's header, restricted to the seven fields `create_path` reads:
absent fields map to `none`; a present field carries its raw value (possibly
Python None). -/
def Header := Field → Option PyValue

/-- pydicom `Dataset.get(field, "NA")`: the element's value when the field is
present (even when that value is None), otherwise the default text "NA". -/
def dsGet (d : Header) (f : Field) : PyValue :=
  (d f).getD (.str (txt "NA"))

/-- One entry of the `tags` dictionary built by `create_path`: the field's
value (or the "NA" sentinel) cleaned with the default forbidden set. -/
def tagValue (d : Header) (f : Field) : PyText :=
  clean_textD (pyStr (dsGet d f))

/-! ## Format-string templates -/

/-- One piece of a Python format string: a literal run of text, or a
placeholder referenced by name. -/
inductive TItem where
  | lit : PyText → TItem
  | ph : PyText → TItem

deriving DecidableEq

/-- A folder or file-name template. -/
abbrev Template := List TItem

/-- Resolve a placeholder name against the keys of the `tags` dictionary. -/
def fieldOfName (n : PyText) : Option Field :=
  if n = txt "Modality" then some .Modality
  else if n = txt "InstanceNumber" then some .InstanceNumber
  else if n = txt "KVP" then some .KVP
  else if n = txt "SliceThickness" then some .SliceThickness
  else if n = txt "ConvolutionKernel" then some .ConvolutionKernel
  else if n = txt "PatientID" then some .PatientID
  else if n = txt "StudyDate" then some .StudyDate
  else none

/-- Python `template.format(**tags)`: substitute each placeholder with its tag
value; a placeholder name that is not a key of `tags` raises KeyError,
modelled as an error carrying the offending name. -/
def formatTemplate (d : Header) : Template → Except PyText PyText
  | [] => .ok []
  | .lit s :: rest => (formatTemplate d rest).map (fun t => s ++ t)
  | .ph n :: rest =>
    match fieldOfName n with
    | some f => (formatTemplate d rest).map (fun t => tagValue d f ++ t)
    | none => .error n

/-- The default folder-structure template: the PatientID, StudyDate, KVP,
SliceThickness and ConvolutionKernel placeholders joined by slashes. -/
def defaultFolderStructure : Template :=
  [.ph (txt "PatientID"), .lit (txt "/"), .ph (txt "StudyDate"), .lit (txt "/"),
   .ph (txt "KVP"), .lit (txt "/"), .ph (txt "SliceThickness"), .lit (txt "/"),
   .ph (txt "ConvolutionKernel")]

/-- The default file-name template: the Modality, InstanceNumber, KVP,
SliceThickness and ConvolutionKernel placeholders joined by underscores, with
the ".dcm" suffix. -/
def defaultFileNameStructure : Template :=
  [.ph (txt "Modality"), .lit (txt "_"), .ph (txt "InstanceNumber"), .lit (txt "_"),
   .ph (txt "KVP"), .lit (txt "_"), .ph (txt "SliceThickness"), .lit (txt "_"),
   .ph (txt "ConvolutionKernel"), .lit (txt ".dcm")]

/-! ## Paths (pathlib model) -/

/-- A `pathlib` path: an absolute flag plus the list of components. -/
structure PyPath where
  absolute : Bool
  components : List PyText

deriving DecidableEq

/-- Split a string on slashes into path components, dropping empty segments,
as pathlib does when a string operand is joined onto a path. -/
def splitPathStr (s : PyText) : List PyText :=
  (s.splitOn slashCp).filter (fun c => c ≠ [])

/-- Whether a string denotes an absolute path (starts with a slash). -/
def isAbsStr (s : PyText) : Bool :=
  match s with
  | c :: _ => c = slashCp
  | [] => false

/-- pathlib `p / s` with a string operand: an absolute string replaces the
path entirely; otherwise its components are appended. -/
def pathJoin (p : PyPath) (s : PyText) : PyPath :=
  if isAbsStr s then ⟨true, splitPathStr s⟩
  else ⟨p.absolute, p.components ++ splitPathStr s⟩

deriving instance DecidableEq for Except

/-! ## create_path -/

/-- `create_path(dicom, destination_folder, folder_structure,
file_name_structure)` from the source: default the two templates when absent,
build the sanitized `tags` dictionary, render the folder string and then the
file string (a KeyError from either propagates), and join
`destination_folder / folder / file`. -/
def create_path (dicom : Header) (destination_folder : PyPath)
    (folder_structure : Option Template := none)
    (file_name_structure : Option Template := none) : Except PyText PyPath := do
  let fs := folder_structure.getD defaultFolderStructure
  let ns := file_name_structure.getD defaultFileNameStructure
  let folder ← formatTemplate dicom fs
  let file ← formatTemplate dicom ns
  pure (pathJoin (pathJoin destination_folder folder) file)

set_option maxRecDepth 10000

/-- The header of the C2 scenario record: PatientID "P1", StudyDate
"20240101", Modality "CT", InstanceNumber 3, KVP 120, SliceThickness 1.0,
ConvolutionKernel "STANDARD" (numeric DICOM values keep their decimal-string
representation). -/
def scenarioHeader : Header := fun f =>
  match f with
  | .PatientID => some (.str (txt "P1"))
  | .StudyDate => some (.str (txt "20240101"))
  | .Modality => some (.str (txt "CT"))
  | .InstanceNumber => some (.str (txt "3"))
  | .KVP => some (.str (txt "120"))
  | .SliceThickness => some (.str (txt "1.0"))
  | .ConvolutionKernel => some (.str (txt "STANDARD"))

/-- The destination root is an ancestor of the produced path: same
absoluteness and the root components are an initial segment. -/
def underRoot (root p : PyPath) : Prop :=
  root.absolute = p.absolute ∧ root.components <+: p.components

/-! ## save_dicom_file -/

/-- The facts about a dataset and its environment that save_dicom_file
consults: whether the file meta-information carries a TransferSyntaxUID,
whether that transfer syntax is compressed, and whether the decompress() and
save_as() calls succeed when made. -/
structure SaveState where
  hasTransferSyntax : Bool
  isCompressed : Bool
  decompressSucceeds : Bool
  saveSucceeds : Bool

deriving DecidableEq

/-- An observable side effect of save_dicom_file, in order of occurrence:
parent-directory creation, the printed decompression warning, the printed
save error, and the written file (the Bool records whether the written
content is still compressed). -/
inductive Effect where
  | mkdirParents : PyPath → Effect
  | warnDecompress : Effect
  | reportSaveError : Effect
  | writeFile : PyPath → Bool → Effect

deriving DecidableEq

/-- How save_dicom_file returns: normally, or with the AttributeError raised
by accessing file_meta.TransferSyntaxUID escaping the function. -/
inductive SaveOutcome where
  | normal
  | attributeError

deriving DecidableEq

/-- The effects performed by a call to save_dicom_file together with how the
call returned. -/
structure SaveResult where
  effects : List Effect
  outcome : SaveOutcome

deriving DecidableEq

/-- The guarded save_as call of save_dicom_file: write the file, or report
the error when save_as raises (the except branch prints and continues). -/
def saveStep (st : SaveState) (file_path : PyPath) (stillCompressed : Bool) :
    List Effect :=
  if st.saveSucceeds then [.writeFile file_path stillCompressed]
  else [.reportSaveError]

/-- save_dicom_file(dicom, file_path, decompress) from the source: create the
parent directories; when decompression is requested, consult
file_meta.TransferSyntaxUID (an AttributeError escapes when the file meta
lacks it) and attempt to decompress a compressed dataset, downgrading a
decompression failure to a printed warning; finally write through the guarded
save_as call. -/
def save_dicom_file (st : SaveState) (file_path : PyPath)
    (decompress : Bool := true) : SaveResult :=
  let mk : Effect := .mkdirParents file_path
  if decompress then
    if st.hasTransferSyntax then
      if st.isCompressed then
        if st.decompressSucceeds then
          ⟨mk :: saveStep st file_path false, .normal⟩
        else
          ⟨mk :: .warnDecompress :: saveStep st file_path true, .normal⟩
      else
        ⟨mk :: saveStep st file_path false, .normal⟩
    else
      ⟨[mk], .attributeError⟩
  else
    ⟨mk :: saveStep st file_path st.isCompressed, .normal⟩

/-! ## The orchestrator sort_dicoms -/

/-- A discovered source file, abstracted by how the per-file pipeline behaves
on it: `readOk = none` models a read that raises; otherwise the parsed
dataset is its header fields together with its save-relevant state. -/
structure SourceFile where
  readOk : Option (Header × SaveState)

/-- The exception classes that can escape the per-file pipeline: a read
failure, the KeyError of a template placeholder missing from the tags
dictionary, and the AttributeError of missing transfer-syntax file meta. -/
inductive PyError where
  | readError : PyError
  | keyError : PyText → PyError
  | attributeError : PyError

deriving DecidableEq

/-- The loop body of sort_dicoms for one file: read the file, render its
destination path, save it.  Returns the save result, or the uncaught
exception that escapes the body for this file. -/
def processOne (dest : PyPath) (fs ns : Option Template) (f : SourceFile) :
    Except PyError SaveResult :=
  match f.readOk with
  | none => .error .readError
  | some (hdr, st) =>
    match create_path hdr dest fs ns with
    | .error n => .error (.keyError n)
    | .ok target =>
      let r := save_dicom_file st target true
      match r.outcome with
      | .attributeError => .error .attributeError
      | .normal => .ok r

/-- The observable outcome of pulling the sort_dicoms generator to
exhaustion: the progress tuples yielded, and the exception that escaped the
generator, if any. -/
structure RunResult where
  progress : List (Nat × Nat)
  error : Option PyError

deriving DecidableEq

/-- The processing loop of sort_dicoms from 1-based index i on: each
iteration runs the per-file pipeline and then yields (i, total); an escaping
exception ends the generator without yielding for the failing file. -/
def sortLoop (dest : PyPath) (fs ns : Option Template) (total : Nat) :
    List SourceFile → Nat → RunResult
  | [], _ => ⟨[], none⟩
  | f :: rest, i =>
    match processOne dest fs ns f with
    | .error e => ⟨[], some e⟩
    | .ok _ =>
      let r := sortLoop dest fs ns total rest (i + 1)
      ⟨(i, total) :: r.progress, r.error⟩

/-- sort_dicoms(source, destination, folder_structure, file_name_structure)
from the source, with directory discovery abstracted by the list of
discovered files: yield (0, 0) and stop when no files are found, otherwise
run the loop over the discovered list with 1-based indices. -/
def sort_dicoms (files : List SourceFile) (dest : PyPath)
    (fs ns : Option Template) : RunResult :=
  if files.isEmpty then ⟨[(0, 0)], none⟩
  else sortLoop dest fs ns files.length files 1

/-- The header with every field absent. -/
def emptyHeader : Header := fun _ => none

/-- A save state with transfer-syntax meta present, uncompressed payload, and
succeeding decompress/save calls. -/
def goodState : SaveState := ⟨true, false, true, true⟩

/-- A discovered file whose whole pipeline succeeds. -/
def fileGood : SourceFile := ⟨some (emptyHeader, goodState)⟩

/-- A discovered file whose metadata read raises. -/
def fileBadRead : SourceFile := ⟨none⟩

/-- A discovered file that reads (force=true) but whose file meta lacks a
TransferSyntaxUID. -/
def fileMissingMeta : SourceFile := ⟨some (emptyHeader, ⟨false, false, true, true⟩)⟩

/-! ## Theorems -/

/-- `clean_text` acts pointwise. -/
theorem clean_text_map (text forbidden : PyText) :
    clean_text text forbidden =
      text.map (fun c => if c ∈ forbidden then underscoreCp else pyLower1 c) := by
  unfold clean_text pyLowerStr pyTranslate
  rw [List.map_map]
  refine List.map_congr_left (fun c _ => ?_)
  by_cases h : c ∈ forbidden <;> simp [h, pyLower1, underscoreCp]

/-- Lowercasing a code point twice is the same as doing it once. -/
theorem pyLower1_idem (c : Nat) : pyLower1 (pyLower1 c) = pyLower1 c := by
  unfold pyLower1
  split
  · have h32 : ¬ (65 ≤ c + 32 ∧ c + 32 ≤ 90) := by omega
    rw [if_neg h32]
  · rfl

/-- The underscore is fixed by lowercasing. -/
theorem pyLower1_underscore : pyLower1 underscoreCp = underscoreCp := by decide

/-- The default forbidden set is closed under preimages of lowercasing: a code
point whose lowercase form is forbidden is itself forbidden (the default
symbols are not lowercase letters, so lowercasing never creates one). -/
theorem defaultForbidden_lower_closed :
    ∀ c, pyLower1 c ∈ defaultForbidden → c ∈ defaultForbidden := by
  intro c h
  have hd : defaultForbidden = [42, 46, 44, 34, 92, 47, 124, 91, 93, 58, 59, 32] := by
    decide
  rw [hd] at h ⊢
  unfold pyLower1 at h
  split at h
  · simp only [List.mem_cons, List.not_mem_nil, or_false] at h
    omega
  · exact h

/-- C3, counterexample: with the non-default forbidden set consisting solely of
the lowercase letter b, cleaning the text "B" yields "b", which is itself a
member of the forbidden set — lowercasing happens after the forbidden-symbol
replacement, so it can reintroduce forbidden characters.  This refutes the
claim quantified over every forbidden-symbol set. -/
theorem C3_clean_text_counterexample :
    ¬ ((∀ c ∈ clean_text (txt "B") [98], c ∉ ([98] : PyText)) ∧
       (∀ c ∈ clean_text (txt "B") [98], pyLower1 c = c)) := by
  decide

/-- C3 (amended): for every text T and forbidden set F that does not contain
the underscore and is closed under preimages of lowercasing (both hold for the
default set), clean_text T F contains no character of F, and every character
of the result is lowercase in the sense of being fixed by lowercasing. -/
theorem C3_clean_text_amended (T F : PyText)
    (hu : underscoreCp ∉ F) (hcl : ∀ c, pyLower1 c ∈ F → c ∈ F) :
    (∀ c ∈ clean_text T F, c ∉ F) ∧ (∀ c ∈ clean_text T F, pyLower1 c = c) := by
  rw [clean_text_map]
  constructor
  · intro c hc
    rcases List.mem_map.1 hc with ⟨a, _, rfl⟩
    by_cases h : a ∈ F
    · simpa [h] using hu
    · rw [if_neg h]
      intro hmem
      exact h (hcl a hmem)
  · intro c hc
    rcases List.mem_map.1 hc with ⟨a, _, rfl⟩
    by_cases h : a ∈ F <;> simp [h, pyLower1_underscore, pyLower1_idem]

/-- C3, witness: the amended theorem applied to the text "Ab C" and the
default forbidden set. -/
theorem C3_clean_text_witness :
    (∀ c ∈ clean_text (txt "Ab C") defaultForbidden, c ∉ defaultForbidden) ∧
    (∀ c ∈ clean_text (txt "Ab C") defaultForbidden, pyLower1 c = c) :=
  C3_clean_text_amended (txt "Ab C") defaultForbidden (by decide)
    defaultForbidden_lower_closed

/-- C4, counterexample: with the forbidden set consisting solely of the
lowercase letter b, clean_text "B" = "b" but cleaning again gives the
underscore, so clean_text is not idempotent for every forbidden set. -/
theorem C4_clean_text_counterexample :
    clean_text (clean_text (txt "B") [98]) [98] ≠ clean_text (txt "B") [98] := by
  decide

/-- C4 (amended): clean_text is idempotent for every forbidden set F closed
under preimages of lowercasing; in particular for the default set. -/
theorem C4_clean_text_amended (T F : PyText)
    (hcl : ∀ c, pyLower1 c ∈ F → c ∈ F) :
    clean_text (clean_text T F) F = clean_text T F := by
  rw [clean_text_map, clean_text_map, List.map_map]
  refine List.map_congr_left (fun a _ => ?_)
  by_cases h : a ∈ F
  · simp only [Function.comp_apply, h, if_pos]
    by_cases hu : underscoreCp ∈ F <;> simp [hu, pyLower1_underscore]
  · have h2 : pyLower1 a ∉ F := fun hm => h (hcl a hm)
    simp [Function.comp_apply, h, h2, pyLower1_idem]

/-- C4, witness: idempotence of clean_text at the text "Ab C" with the default
forbidden set. -/
theorem C4_clean_text_witness :
    clean_text (clean_text (txt "Ab C") defaultForbidden) defaultForbidden =
      clean_text (txt "Ab C") defaultForbidden :=
  C4_clean_text_amended (txt "Ab C") defaultForbidden defaultForbidden_lower_closed

/-- C2, counterexample: on the scenario record, create_path with the default
templates does not return the claimed path, whose SliceThickness segments keep
the period of "1.0" — the period is a default forbidden symbol, so clean_text
replaces it with an underscore. -/
theorem C2_create_path_counterexample :
    create_path scenarioHeader ⟨true, [txt "dest"]⟩ ≠
      Except.ok ⟨true, [txt "dest", txt "p1", txt "20240101", txt "120",
        txt "1.0", txt "standard", txt "ct_3_120_1.0_standard.dcm"]⟩ := by
  decide

/-- C2 (amended): on the scenario record, create_path with the default
templates returns the destination root extended with the relative path
p1/20240101/120/1_0/standard/ct_3_120_1_0_standard.dcm (the period of the
rendered SliceThickness value "1.0" is sanitized to an underscore). -/
theorem C2_create_path_amended :
    create_path scenarioHeader ⟨true, [txt "dest"]⟩ =
      Except.ok ⟨true, [txt "dest", txt "p1", txt "20240101", txt "120",
        txt "1_0", txt "standard", txt "ct_3_120_1_0_standard.dcm"]⟩ := by
  decide

/-- C5, counterexample: sanitizing the sentinel "NA" is not a no-op (it is
lowercased to "na"), and a field present with value None renders as the
sanitized text "none", not as the sanitized sentinel. -/
theorem C5_na_counterexample :
    tagValue (fun _ => some PyValue.pyNone) Field.PatientID ≠ clean_textD (txt "NA") ∧
    clean_textD (txt "NA") ≠ txt "NA" := by
  decide

/-- C5 (amended): for every header R and field f absent from R, the
placeholder value used by create_path equals the sanitized sentinel
clean_text("NA"), which is the lowercased text "na" — sanitization is not a
no-op on "NA".  (A field present with value None instead renders as "none".) -/
theorem C5_absent_field_amended (R : Header) (f : Field) (h : R f = none) :
    tagValue R f = clean_textD (txt "NA") ∧ clean_textD (txt "NA") = txt "na" := by
  constructor
  · unfold tagValue dsGet
    rw [h]
    rfl
  · decide

/-- C5, witness: the amended theorem applied to the empty header and the
Modality field. -/
theorem C5_absent_field_witness :
    tagValue (fun _ => none) Field.Modality = clean_textD (txt "NA") ∧
    clean_textD (txt "NA") = txt "na" :=
  C5_absent_field_amended (fun _ => none) Field.Modality rfl

/-- C7, counterexample: a folder template rendering to an absolute string
(here the literal "/evil") makes pathlib discard the destination root, so the
returned path does not lie under it. -/
theorem C7_create_path_counterexample :
    create_path scenarioHeader ⟨true, [txt "d"]⟩ (some [TItem.lit (txt "/evil")]) none =
      Except.ok ⟨true, [txt "evil", txt "ct_3_120_1_0_standard.dcm"]⟩ ∧
    ¬ underRoot ⟨true, [txt "d"]⟩ ⟨true, [txt "evil", txt "ct_3_120_1_0_standard.dcm"]⟩ := by
  constructor
  · decide
  · intro hr
    rcases hr with ⟨-, hpre⟩
    have : ¬ ([txt "d"] <+: [txt "evil", txt "ct_3_120_1_0_standard.dcm"]) := by decide
    exact this hpre

/-- C7 (amended): whenever the rendered folder string and file-name string are
not absolute (do not begin with a slash), the path returned by create_path
lies under the destination root. -/
theorem C7_create_path_amended (R : Header) (dest : PyPath)
    (fs ns : Option Template) (folder file : PyText) (p : PyPath)
    (hf : formatTemplate R (fs.getD defaultFolderStructure) = .ok folder)
    (hn : formatTemplate R (ns.getD defaultFileNameStructure) = .ok file)
    (haf : isAbsStr folder = false) (han : isAbsStr file = false)
    (hp : create_path R dest fs ns = .ok p) :
    underRoot dest p := by
  unfold create_path at hp
  simp only [bind, Except.bind, hf, hn, pure, Except.pure, Except.ok.injEq] at hp
  subst hp
  unfold pathJoin
  rw [haf, han]
  simp only [Bool.false_eq_true, if_false]
  refine ⟨rfl, ?_⟩
  rw [List.append_assoc]
  exact List.prefix_append _ _

/-- C7, witness: the amended theorem applied to the scenario record, the
default templates and a concrete destination root. -/
theorem C7_create_path_witness :
    underRoot ⟨true, [txt "d"]⟩ ⟨true, [txt "d", txt "p1", txt "20240101", txt "120",
      txt "1_0", txt "standard", txt "ct_3_120_1_0_standard.dcm"]⟩ :=
  C7_create_path_amended scenarioHeader ⟨true, [txt "d"]⟩ none none
    (txt "p1/20240101/120/1_0/standard") (txt "ct_3_120_1_0_standard.dcm") _
    (by decide) (by decide) (by decide) (by decide) (by decide)

/-- C8: for every dataset whose transfer syntax indicates compression, when
save_dicom_file runs with decompress=true and the decompression step fails,
the failure is reported as a warning and the write still proceeds: the file
is written at the destination in its still-compressed form and the call
returns normally. -/
theorem C8_save_decompress_failure_recovered (st : SaveState) (p : PyPath)
    (hts : st.hasTransferSyntax = true) (hc : st.isCompressed = true)
    (hd : st.decompressSucceeds = false) (hs : st.saveSucceeds = true) :
    save_dicom_file st p true =
      ⟨[.mkdirParents p, .warnDecompress, .writeFile p true], .normal⟩ := by
  simp [save_dicom_file, saveStep, hts, hc, hd, hs]

/-- C8, witness: the theorem applied to a compressed dataset whose
decompression fails and whose write succeeds. -/
theorem C8_save_decompress_failure_witness :
    save_dicom_file ⟨true, true, false, true⟩ ⟨true, [txt "d"]⟩ true =
      ⟨[.mkdirParents ⟨true, [txt "d"]⟩, .warnDecompress,
        .writeFile ⟨true, [txt "d"]⟩ true], .normal⟩ :=
  C8_save_decompress_failure_recovered ⟨true, true, false, true⟩ ⟨true, [txt "d"]⟩
    rfl rfl rfl rfl

/-- C10: for every dataset lacking transfer-syntax file meta-information,
save_dicom_file with decompress=true creates the ancestor directories and
then escapes with the AttributeError raised by the access to
file_meta.TransferSyntaxUID: the directory creation is the only effect — in
particular no file is written — and the exception escapes the function. -/
theorem C10_save_missing_file_meta (st : SaveState) (p : PyPath)
    (h : st.hasTransferSyntax = false) :
    save_dicom_file st p true = ⟨[.mkdirParents p], .attributeError⟩ ∧
    ∀ q b, Effect.writeFile q b ∉ (save_dicom_file st p true).effects := by
  have he : save_dicom_file st p true = ⟨[.mkdirParents p], .attributeError⟩ := by
    simp [save_dicom_file, h]
  refine ⟨he, fun q b => ?_⟩
  rw [he]
  simp

/-- C10, witness: the theorem applied to a dataset read with force=true from
a malformed file, whose file meta has no TransferSyntaxUID. -/
theorem C10_save_missing_file_meta_witness :
    save_dicom_file ⟨false, false, true, true⟩ ⟨true, [txt "d2"]⟩ true =
      ⟨[.mkdirParents ⟨true, [txt "d2"]⟩], .attributeError⟩ ∧
    ∀ q b, Effect.writeFile q b ∉
      (save_dicom_file ⟨false, false, true, true⟩ ⟨true, [txt "d2"]⟩ true).effects :=
  C10_save_missing_file_meta ⟨false, false, true, true⟩ ⟨true, [txt "d2"]⟩ rfl

/-- sort_dicoms on a nonempty discovery list runs the loop. -/
theorem sort_dicoms_cons (f : SourceFile) (rest : List SourceFile)
    (dest : PyPath) (fs ns : Option Template) :
    sort_dicoms (f :: rest) dest fs ns =
      sortLoop dest fs ns (f :: rest).length (f :: rest) 1 := rfl

/-- A loop iteration whose pipeline raises ends the run with that exception,
yielding nothing for the failing file or any later file. -/
theorem sortLoop_cons_error (dest : PyPath) (fs ns : Option Template)
    (total : Nat) (f : SourceFile) (rest : List SourceFile) (i : Nat)
    (e : PyError) (h : processOne dest fs ns f = .error e) :
    sortLoop dest fs ns total (f :: rest) i = ⟨[], some e⟩ := by
  unfold sortLoop
  rw [h]

/-- Rendering the default folder template never raises. -/
theorem formatTemplate_default_folder_ok (d : Header) :
    ∃ s, formatTemplate d defaultFolderStructure = Except.ok s := ⟨_, rfl⟩

/-- Rendering the default file-name template never raises. -/
theorem formatTemplate_default_file_ok (d : Header) :
    ∃ s, formatTemplate d defaultFileNameStructure = Except.ok s := ⟨_, rfl⟩

/-- create_path with the default templates never raises: both default
templates reference only supported placeholder names. -/
theorem create_path_default_ok (d : Header) (dest : PyPath) :
    ∃ p, create_path d dest none none = Except.ok p := ⟨_, rfl⟩

/-- When the file meta carries a TransferSyntaxUID, save_dicom_file returns
normally whatever the compression state and the decompress/save outcomes:
both the decompression failure and the save failure are caught inside it. -/
theorem save_outcome_normal (st : SaveState) (p : PyPath)
    (hts : st.hasTransferSyntax = true) :
    (save_dicom_file st p true).outcome = SaveOutcome.normal := by
  by_cases h1 : st.isCompressed <;> by_cases h2 : st.decompressSucceeds <;>
    simp [save_dicom_file, saveStep, hts, h1, h2]

/-- With the default templates, the pipeline succeeds on every file that
reads successfully and has transfer-syntax file meta, regardless of whether
decompression or the write succeed. -/
theorem processOne_ok_of (dest : PyPath) (f : SourceFile) (hdr : Header)
    (st : SaveState) (hread : f.readOk = some (hdr, st))
    (hts : st.hasTransferSyntax = true) :
    ∃ r, processOne dest none none f = Except.ok r := by
  unfold processOne
  rw [hread]
  obtain ⟨p, hp⟩ := create_path_default_ok hdr dest
  simp only [hp]
  rw [save_outcome_normal st p hts]
  exact ⟨_, rfl⟩

/-- When every discovered file's pipeline succeeds, the loop yields one tuple
per file, counting up from the start index, and no exception escapes. -/
theorem sortLoop_all_ok (dest : PyPath) (fs ns : Option Template)
    (total : Nat) :
    ∀ (files : List SourceFile) (i : Nat),
      (∀ f ∈ files, ∃ r, processOne dest fs ns f = Except.ok r) →
      sortLoop dest fs ns total files i =
        ⟨(List.range files.length).map (fun k => (i + k, total)), none⟩ := by
  intro files
  induction files with
  | nil => intro i _; rfl
  | cons f rest ih =>
    intro i h
    obtain ⟨r, hr⟩ := h f (List.mem_cons_self f rest)
    unfold sortLoop
    rw [hr]
    have hrest := ih (i + 1) (fun g hg => h g (List.mem_cons_of_mem f hg))
    rw [hrest]
    simp only [List.length_cons, List.range_succ_eq_map, List.map_cons,
      List.map_map, Function.comp, Nat.add_zero, RunResult.mk.injEq,
      List.cons.injEq, and_true, true_and]
    refine List.map_congr_left fun k _ => ?_
    show (i + 1 + k, total) = (i + Nat.succ k, total)
    have hik : i + 1 + k = i + Nat.succ k := by omega
    rw [hik]

/-- C1, counterexample: a directory with two files, the first readable but
lacking transfer-syntax file meta.  The AttributeError raised inside
save_dicom_file for the first file escapes sort_dicoms — no per-file catch
exists at the orchestrator boundary — so the batch aborts, the second file is
never processed, and the progress sequence has zero of the claimed two
tuples. -/
theorem C1_sort_dicoms_counterexample :
    sort_dicoms [fileMissingMeta, fileGood] ⟨true, [txt "d"]⟩ none none =
      ⟨[], some PyError.attributeError⟩ ∧
    ¬ ((sort_dicoms [fileMissingMeta, fileGood] ⟨true, [txt "d"]⟩ none none).error = none ∧
       (sort_dicoms [fileMissingMeta, fileGood] ⟨true, [txt "d"]⟩
           none none).progress.length = 2) := by
  decide

/-- C1 (amended): only exceptions from decompress() and save_as() are caught
(inside save_dicom_file); with the default templates, a batch whose files all
read successfully and carry transfer-syntax file meta runs to completion with
one progress tuple per discovered file and no escaping exception, whatever
the decompression and write outcomes.  Exceptions from the metadata read, the
path render, or the file-meta access propagate and abort the batch. -/
theorem C1_sort_dicoms_amended (files : List SourceFile) (dest : PyPath)
    (h : ∀ f ∈ files, ∃ hdr st, f.readOk = some (hdr, st) ∧
        st.hasTransferSyntax = true) :
    (sort_dicoms files dest none none).error = none ∧
    (files ≠ [] →
      (sort_dicoms files dest none none).progress.length = files.length) := by
  cases files with
  | nil => exact ⟨rfl, fun hne => absurd rfl hne⟩
  | cons f rest =>
    have hok : ∀ g ∈ f :: rest, ∃ r, processOne dest none none g = Except.ok r := by
      intro g hg
      obtain ⟨hdr, st, hread, hts⟩ := h g hg
      exact processOne_ok_of dest g hdr st hread hts
    rw [sort_dicoms_cons,
      sortLoop_all_ok dest none none (f :: rest).length (f :: rest) 1 hok]
    exact ⟨rfl, fun _ => by simp⟩

/-- C1, witness: a one-file batch whose file reads successfully and carries
transfer-syntax file meta completes with one tuple. -/
theorem C1_sort_dicoms_witness :
    (sort_dicoms [fileGood] ⟨true, [txt "w"]⟩ none none).error = none ∧
    ([fileGood] ≠ ([] : List SourceFile) →
      (sort_dicoms [fileGood] ⟨true, [txt "w"]⟩ none none).progress.length = 1) :=
  C1_sort_dicoms_amended [fileGood] ⟨true, [txt "w"]⟩ (by
    intro f hf
    rw [List.mem_singleton] at hf
    subst hf
    exact ⟨emptyHeader, goodState, rfl, rfl⟩)

/-- C6, counterexample: a directory whose single discovered file fails to
read yields no progress tuple at all — the read exception escapes before the
first yield — rather than the claimed single tuple (1, 1). -/
theorem C6_sort_dicoms_counterexample :
    sort_dicoms [fileBadRead] ⟨true, [txt "d"]⟩ none none =
      ⟨[], some PyError.readError⟩ ∧
    sort_dicoms [fileBadRead] ⟨true, [txt "d"]⟩ none none ≠
      ⟨[(1, 1)], none⟩ := by
  decide

/-- C6 (amended): with zero discovered files sort_dicoms yields exactly
(0, 0) and stops; with N > 0 discovered files, provided every file's
pipeline completes without an escaping exception, it yields exactly
(1, N), ..., (N, N) in order and stops after the N-th. -/
theorem C6_sort_dicoms_amended (files : List SourceFile) (dest : PyPath)
    (fs ns : Option Template)
    (h : ∀ f ∈ files, ∃ r, processOne dest fs ns f = Except.ok r) :
    sort_dicoms files dest fs ns =
      if files.isEmpty then ⟨[(0, 0)], none⟩
      else ⟨(List.range files.length).map (fun k => (k + 1, files.length)), none⟩ := by
  unfold sort_dicoms
  by_cases he : files.isEmpty
  · rw [if_pos he, if_pos he]
  · rw [if_neg he, if_neg he,
      sortLoop_all_ok dest fs ns files.length files 1 h]
    congr 1
    refine List.map_congr_left fun k _ => ?_
    simp only [Prod.mk.injEq, and_true]
    omega

/-- C6, witness: a batch of one succeeding file yields exactly (1, 1). -/
theorem C6_sort_dicoms_witness :
    sort_dicoms [fileGood] ⟨true, [txt "w6"]⟩ none none =
      if ([fileGood] : List SourceFile).isEmpty then ⟨[(0, 0)], none⟩
      else ⟨(List.range 1).map (fun k => (k + 1, 1)), none⟩ :=
  C6_sort_dicoms_amended [fileGood] ⟨true, [txt "w6"]⟩ none none (by
    intro f hf
    rw [List.mem_singleton] at hf
    subst hf
    exact ⟨_, rfl⟩)

/-- C9, counterexample: the name SeriesNumber is not a supported placeholder,
yet a run configured with the folder template consisting of that placeholder
is not aborted up front: on an empty discovery it completes normally without
ever surfacing the configuration error, and on a directory whose first file
fails to read the run aborts with the read error, not the template error —
the KeyError is only raised per file, at render time inside the loop. -/
theorem C9_sort_dicoms_counterexample :
    fieldOfName (txt "SeriesNumber") = none ∧
    sort_dicoms [] ⟨true, [txt "d"]⟩ (some [TItem.ph (txt "SeriesNumber")]) none =
      ⟨[(0, 0)], none⟩ ∧
    sort_dicoms [fileBadRead] ⟨true, [txt "d"]⟩
        (some [TItem.ph (txt "SeriesNumber")]) none =
      ⟨[], some PyError.readError⟩ := by
  decide

/-- C9 (amended): a template referencing an unsupported placeholder is not
validated up front; the KeyError is raised at render time of the first
processed file, inside the loop and after that file's metadata read, and —
there being no handler — it propagates and aborts the run at that point with
no progress yielded.  With zero discovered files it is never surfaced. -/
theorem C9_sort_dicoms_amended (f : SourceFile) (rest : List SourceFile)
    (dest : PyPath) (fs ns : Option Template) (hdr : Header) (st : SaveState)
    (n : PyText) (hread : f.readOk = some (hdr, st))
    (hbad : formatTemplate hdr (fs.getD defaultFolderStructure) = .error n) :
    sort_dicoms (f :: rest) dest fs ns = ⟨[], some (PyError.keyError n)⟩ := by
  have hcp : create_path hdr dest fs ns = .error n := by
    unfold create_path
    simp [hbad, bind, Except.bind]
  have hp1 : processOne dest fs ns f = .error (.keyError n) := by
    unfold processOne
    rw [hread]
    simp [hcp]
  rw [sort_dicoms_cons, sortLoop_cons_error dest fs ns _ f rest 1 _ hp1]

/-- C9, witness: a two-file batch with the unsupported SeriesNumber
placeholder in the folder template aborts on the first file with the
KeyError and yields no progress. -/
theorem C9_sort_dicoms_witness :
    sort_dicoms [fileGood, fileGood] ⟨true, [txt "d"]⟩
        (some [TItem.ph (txt "SeriesNumber")]) none =
      ⟨[], some (PyError.keyError (txt "SeriesNumber"))⟩ :=
  C9_sort_dicoms_amended fileGood [fileGood] ⟨true, [txt "d"]⟩
    (some [TItem.ph (txt "SeriesNumber")]) none emptyHeader goodState
    (txt "SeriesNumber") rfl (by decide)

end DicomSorter
